import Mathlib

/-!
Verification of the StarMallow parameter-resolution and validation core.

The repository ships design documents (docs/design_ideas.md), a goals
notebook (examples/goals.ipynb, which contains the FieldInfo prototype and
the seven source-kind marker classes), the README and the packaging files.
The runtime package itself is not present, so the schema-inference engine,
endpoint compiler, request binder and response serializer below are
modelled from the design specification; the FieldInfo data model is
embedded from examples/goals.ipynb.

Values are a JSON-like data type; schemas mirror marshmallow fields and
schemas (a primitive field with a library-level load default, or a named
record of fields); the compiler classifies declared parameters, merges
body parameters and reconciles defaults; the binder extracts, validates
and aggregates errors per request.
-/

/-- A parameter source kind: one of the seven marker classes of
examples/goals.ipynb (Path, Query, Header, Cookie, Body, Form, File). -/
inductive SourceKind where
  | path
  | query
  | header
  | cookie
  | body
  | form
  | file
deriving Repr, DecidableEq

/-- JSON-like values flowing through the framework: primitives, null and
objects (ordered key/value lists, as parsed JSON bodies). -/
inductive Value where
  | vInt (n : Int)
  | vStr (s : String)
  | vBool (b : Bool)
  | vNull
  | vObj (fields : List (String × Value))

/-- First-some choice between two optional values. -/
def firstSome (a b : Option Value) : Option Value :=
  match a with
  | some v => some v
  | none => b

/-- Lookup of a key in an object field list (first match wins). -/
def lookupKV (k : String) : List (String × Value) → Option Value
  | [] => none
  | (k2, v) :: rest => if k2 = k then some v else lookupKV k rest

/-- Lookup in a raw string mapping (query string, headers, cookies, form). -/
def lookupStr (k : String) : List (String × String) → Option String
  | [] => none
  | (k2, v) :: rest => if k2 = k then some v else lookupStr k rest

/-- Decimal digit value of a character, if it is a digit. -/
def charDigit (c : Char) : Option Nat :=
  if 48 ≤ c.toNat ∧ c.toNat ≤ 57 then some (c.toNat - 48) else none

/-- Accumulating decimal parser over a character list. -/
def digitsToNat : Nat → List Char → Option Nat
  | acc, [] => some acc
  | acc, c :: rest =>
    match charDigit c with
    | some d => digitsToNat (acc * 10 + d) rest
    | none => none

/-- Integer parser for raw request strings (marshmallow Integer coercion). -/
def strToInt (s : String) : Option Int :=
  match s.data with
  | [] => none
  | '-' :: rest =>
    if rest = [] then none
    else (digitsToNat 0 rest).map (fun n => -(n : Int))
  | ds => (digitsToNat 0 ds).map (fun n => (n : Int))

/-- Primitive scalar kinds of the schema library. -/
inductive PrimType where
  | pInt
  | pStr
  | pBool
deriving Repr, DecidableEq

/-- Whether a value is a native (already deserialized) value of the given
primitive type. -/
def validPrim : PrimType → Value → Bool
  | .pInt, .vInt _ => true
  | .pStr, .vStr _ => true
  | .pBool, .vBool _ => true
  | _, _ => false

/-- Deserialization of one primitive: native values pass through and raw
strings are coerced, mirroring marshmallow field deserialization. -/
def coercePrim : PrimType → Value → Option Value
  | .pInt, .vInt n => some (.vInt n)
  | .pInt, .vStr s => (strToInt s).map Value.vInt
  | .pStr, .vStr s => some (.vStr s)
  | .pBool, .vBool b => some (.vBool b)
  | .pBool, .vStr s =>
    if s = "true" then some (.vBool true)
    else if s = "false" then some (.vBool false)
    else none
  | _, _ => none

/-- Validation message of a failed primitive deserialization
(the integer message is the one recorded in examples/goals.ipynb). -/
def primErrMsg : PrimType → String
  | .pInt => "Not a valid integer."
  | .pStr => "Not a valid string."
  | .pBool => "Not a valid boolean."

/-- Modelled from the spec: a Schema Node (section 3 of the design spec) is
either a primitive with constraints or a named composite record whose
fields are recursively Schema Nodes.  Each node carries the required flag,
the native-language declared default and the schema-library declared
default; optional/union-with-none wrappers are represented by the required
flag being forced false.  The runtime schema engine is absent from the
sources, so this embeds the data model of spec section 3. -/
inductive SchemaNode where
  | prim (t : PrimType) (required : Bool) (nativeDefault libDefault : Option Value)
  | record (fields : List (String × SchemaNode)) (required : Bool)
      (nativeDefault libDefault : Option Value)

/-- Required flag of a node. -/
def SchemaNode.required : SchemaNode → Bool
  | .prim _ r _ _ => r
  | .record _ r _ _ => r

/-- Native-language (Python or explicit parameter) declared default. -/
def SchemaNode.nativeDefault : SchemaNode → Option Value
  | .prim _ _ nd _ => nd
  | .record _ _ nd _ => nd

/-- Schema-library (marshmallow missing/load_default) declared default. -/
def SchemaNode.libDefault : SchemaNode → Option Value
  | .prim _ _ _ ld => ld
  | .record _ _ _ ld => ld

/-- Default reconciliation of docs/design_ideas.md: the native-language
default always takes precedence over the schema-library default. -/
def SchemaNode.effectiveDefault (s : SchemaNode) : Option Value :=
  firstSome s.nativeDefault s.libDefault

/-- Fields of a record node (empty for primitives). -/
def SchemaNode.fieldsOf : SchemaNode → List (String × SchemaNode)
  | .prim _ _ _ _ => []
  | .record fs _ _ _ => fs

/-- Whether a node is a composite record. -/
def SchemaNode.isRecord : SchemaNode → Bool
  | .record _ _ _ _ => true
  | .prim _ _ _ _ => false

/-- An error produced by schema-level validation: a field path relative to
the schema root together with a message. -/
abbrev PathErr := List String × String

/-- Lookup of a field by name in a record field list. -/
def lookupField (k : String) : List (String × SchemaNode) → Option SchemaNode
  | [] => none
  | (k2, s) :: rest => if k2 = k then some s else lookupField k rest

mutual

/-- Modelled from the spec: deserialization/validation of a raw value
against a Schema Node (black-box schema-library capability of spec
section 1, elaborated by sections 3 and 4.1).  Primitives coerce raw
values; records process every field, fill absent fields from their
reconciled defaults, record a missing-field error for absent required
fields, and collect all errors in declared field order. -/
def deserialize : SchemaNode → Value → Except (List PathErr) Value
  | .prim t _ _ _, v =>
    match coercePrim t v with
    | some v2 => .ok v2
    | none => .error [([], primErrMsg t)]
  | .record fields _ _ _, .vObj o =>
    match deserFields fields o with
    | .ok outs => .ok (.vObj outs)
    | .error es => .error es
  | .record _ _ _ _, _ => .error [([], "Invalid input type.")]

/-- Deserialization of a record field list, collecting outputs and all
errors in declared field order: present values recurse (errors prefixed
with the field name), absent values fall back to the reconciled default,
and a required absent field is a missing-field error. -/
def deserFields : List (String × SchemaNode) → List (String × Value) →
    Except (List PathErr) (List (String × Value))
  | [], _ => .ok []
  | (name, s) :: rest, o =>
    match
      (match lookupKV name o with
       | some v =>
         match deserialize s v with
         | .ok v2 => Except.ok [(name, v2)]
         | .error es => Except.error (es.map (fun (pe : PathErr) => (name :: pe.1, pe.2)))
       | none =>
         match s.effectiveDefault with
         | some d => Except.ok [(name, d)]
         | none =>
           if s.required then Except.error [([name], "Missing data for required field.")]
           else Except.ok []),
      deserFields rest o with
    | .ok kvs1, .ok kvs2 => .ok (kvs1 ++ kvs2)
    | .error es1, .error es2 => .error (es1 ++ es2)
    | .error es1, .ok _ => .error es1
    | .ok _, .error es2 => .error es2

end

/-- Deserialization of one declared record field, named for reasoning: the
head step of deserFields. -/
def deserField1 (name : String) (s : SchemaNode) (o : List (String × Value)) :
    Except (List PathErr) (List (String × Value)) :=
  match lookupKV name o with
  | some v =>
    match deserialize s v with
    | .ok v2 => .ok [(name, v2)]
    | .error es => .error (es.map (fun (pe : PathErr) => (name :: pe.1, pe.2)))
  | none =>
    match s.effectiveDefault with
    | some d => .ok [(name, d)]
    | none =>
      if s.required then .error [([name], "Missing data for required field.")]
      else .ok []

mutual

/-- Modelled from the spec: serialization (dump) of a native return value
through a Schema Node, enforcing that the value matches the declared
shape (spec section 4.4). -/
def dump : SchemaNode → Value → Except (List PathErr) Value
  | .prim t _ _ _, v =>
    if validPrim t v then .ok v else .error [([], primErrMsg t)]
  | .record fields _ _ _, .vObj o =>
    match dumpFields fields o with
    | .ok outs => .ok (.vObj outs)
    | .error es => .error es
  | .record _ _ _ _, _ => .error [([], "Invalid input type.")]

/-- Serialization of a record field list: present fields recurse, absent
required fields are shape errors, absent optional fields are skipped. -/
def dumpFields : List (String × SchemaNode) → List (String × Value) →
    Except (List PathErr) (List (String × Value))
  | [], _ => .ok []
  | (name, s) :: rest, o =>
    match
      (match lookupKV name o with
       | some v =>
         match dump s v with
         | .ok v2 => Except.ok [(name, v2)]
         | .error es => Except.error (es.map (fun (pe : PathErr) => (name :: pe.1, pe.2)))
       | none =>
         if s.required then Except.error [([name], "Missing data for required field.")]
         else Except.ok []),
      dumpFields rest o with
    | .ok kvs1, .ok kvs2 => .ok (kvs1 ++ kvs2)
    | .error es1, .error es2 => .error (es1 ++ es2)
    | .error es1, .ok _ => .error es1
    | .ok _, .error es2 => .error es2

end

example : deserialize (.record [("a", .prim .pInt true none none)] true none none)
    (.vObj [("a", .vStr "42")]) = .ok (.vObj [("a", .vInt 42)]) := rfl

example : deserialize (.prim .pInt true none none) (.vStr "abc")
    = .error [([], "Not a valid integer.")] := rfl

/-- A schema-inference failure identifying the offending type path
(spec section 4.1). -/
structure SchemaInferenceError where
  path : List String
  msg : String
deriving Repr, DecidableEq

/-- Modelled from the spec: a native type annotation as inspected from an
endpoint signature (spec section 4.1): primitives, optional wrappers,
composite record types (each field with its name, its type, its
native-language declared default and its schema-library declared default,
as with marshmallow-dataclass field metadata), and an unmappable type
(unsupported generic or unresolvable forward reference). -/
inductive TyAnn where
  | tInt
  | tStr
  | tBool
  | tOptional (inner : TyAnn)
  | tRecord (rname : String) (fields : List (String × TyAnn × Option Value × Option Value))
  | tUnsupported (desc : String)

/-- Force the required flag of a node to false (optional wrapper rule of
spec section 4.1). -/
def setNotRequired : SchemaNode → SchemaNode
  | .prim t _ nd ld => .prim t false nd ld
  | .record fs _ nd ld => .record fs false nd ld

/-- Attach a record field declaration's defaults to its inferred node: the
field keeps both declared defaults and is required only when it has no
default at all. -/
def attachDefaults : SchemaNode → Option Value → Option Value → SchemaNode
  | .prim t r _ _, nd, ld =>
    .prim t (r && (firstSome nd ld).isNone) nd ld
  | .record fs r _ _, nd, ld =>
    .record fs (r && (firstSome nd ld).isNone) nd ld

mutual

/-- Modelled from the spec: structural mapping of a native type annotation
to a Schema Node (spec section 4.1): primitives map to constrained scalar
nodes, optional wrappers force required to false on the inferred inner
node, composite record types map to record nodes whose fields are
recursively inferred, and an unmappable type is a SchemaInferenceError
identifying the offending type path. -/
def inferFromType : TyAnn → Except SchemaInferenceError SchemaNode
  | .tInt => .ok (.prim .pInt true none none)
  | .tStr => .ok (.prim .pStr true none none)
  | .tBool => .ok (.prim .pBool true none none)
  | .tOptional inner =>
    match inferFromType inner with
    | .ok s => .ok (setNotRequired s)
    | .error e => .error e
  | .tRecord _ fields =>
    match inferFields fields with
    | .ok fs => .ok (.record fs true none none)
    | .error e => .error e
  | .tUnsupported d => .error (SchemaInferenceError.mk [] ("cannot map type: " ++ d))

/-- Recursive inference of record field declarations, attaching each
field's declared defaults and prefixing failures with the field name. -/
def inferFields : List (String × TyAnn × Option Value × Option Value) →
    Except SchemaInferenceError (List (String × SchemaNode))
  | [] => .ok []
  | (name, ty, nd, ld) :: rest =>
    match inferFromType ty with
    | .error e => .error (SchemaInferenceError.mk (name :: e.path) e.msg)
    | .ok s =>
      match inferFields rest with
      | .error e => .error e
      | .ok fs => .ok ((name, attachDefaults s nd ld) :: fs)

end

mutual

/-- Whether a type annotation contains an unmappable type (unsupported
generic or unresolvable forward reference) anywhere inside it. -/
def hasUnsupported : TyAnn → Bool
  | .tInt => false
  | .tStr => false
  | .tBool => false
  | .tOptional inner => hasUnsupported inner
  | .tRecord _ fields => hasUnsupportedFields fields
  | .tUnsupported _ => true

/-- Whether any record field declaration contains an unmappable type. -/
def hasUnsupportedFields : List (String × TyAnn × Option Value × Option Value) → Bool
  | [] => false
  | (_, ty, _, _) :: rest => hasUnsupported ty || hasUnsupportedFields rest

end

/-- Whether a type annotation is a composite record (looking through
optional wrappers). -/
def isComposite : TyAnn → Bool
  | .tRecord _ _ => true
  | .tOptional inner => isComposite inner
  | _ => false

/-- The declared default of a FieldInfo: Ellipsis (required) or a value;
embeds the mandatory positional default argument of FieldInfo.__init__ in
examples/goals.ipynb. -/
inductive ParamDefault where
  | ellipsis
  | val (v : Value)

/-- FieldInfo of examples/goals.ipynb: a mandatory positional default plus
optional deprecated, include_in_schema and model keyword arguments, with
the same default argument values as the source (None, True, None). -/
structure FieldInfo where
  default : ParamDefault
  deprecated : Option Bool := none
  include_in_schema : Bool := true
  model : Option SchemaNode := none

/-- A concrete source-kind marker: one of the seven FieldInfo subclasses
of examples/goals.ipynb.  Each subclass adds no fields of its own, so a
marker is exactly a source kind together with the shared FieldInfo data. -/
structure ParamMarker where
  kind : SourceKind
  info : FieldInfo

/-- Path marker class of examples/goals.ipynb: class Path(FieldInfo). -/
def mkPath (d : ParamDefault) (dep : Option Bool := none)
    (inc : Bool := true) (mo : Option SchemaNode := none) : ParamMarker :=
  ParamMarker.mk .path (FieldInfo.mk d dep inc mo)

/-- Query marker class of examples/goals.ipynb: class Query(FieldInfo). -/
def mkQuery (d : ParamDefault) (dep : Option Bool := none)
    (inc : Bool := true) (mo : Option SchemaNode := none) : ParamMarker :=
  ParamMarker.mk .query (FieldInfo.mk d dep inc mo)

/-- Header marker class of examples/goals.ipynb: class Header(FieldInfo). -/
def mkHeader (d : ParamDefault) (dep : Option Bool := none)
    (inc : Bool := true) (mo : Option SchemaNode := none) : ParamMarker :=
  ParamMarker.mk .header (FieldInfo.mk d dep inc mo)

/-- Cookie marker class of examples/goals.ipynb: class Cookie(FieldInfo). -/
def mkCookie (d : ParamDefault) (dep : Option Bool := none)
    (inc : Bool := true) (mo : Option SchemaNode := none) : ParamMarker :=
  ParamMarker.mk .cookie (FieldInfo.mk d dep inc mo)

/-- Body marker class of examples/goals.ipynb: class Body(FieldInfo). -/
def mkBody (d : ParamDefault) (dep : Option Bool := none)
    (inc : Bool := true) (mo : Option SchemaNode := none) : ParamMarker :=
  ParamMarker.mk .body (FieldInfo.mk d dep inc mo)

/-- Form marker class of examples/goals.ipynb: class Form(FieldInfo). -/
def mkForm (d : ParamDefault) (dep : Option Bool := none)
    (inc : Bool := true) (mo : Option SchemaNode := none) : ParamMarker :=
  ParamMarker.mk .form (FieldInfo.mk d dep inc mo)

/-- File marker class of examples/goals.ipynb: class File(FieldInfo). -/
def mkFile (d : ParamDefault) (dep : Option Bool := none)
    (inc : Bool := true) (mo : Option SchemaNode := none) : ParamMarker :=
  ParamMarker.mk .file (FieldInfo.mk d dep inc mo)

/-- The default slot of a declared parameter: nothing, a plain
native-language default value, or an explicit marker instance. -/
inductive DefaultSlot where
  | empty
  | plain (v : Value)
  | marker (m : ParamMarker)

/-- Modelled from the spec: one declared endpoint parameter as inspected
from the callable signature (spec section 4.2): its name, its type
annotation, its default slot, and the explicit embed flag of spec
section 3 (whether a Body parameter is nested under its name). -/
structure DeclaredParam where
  name : String
  ty : TyAnn
  slot : DefaultSlot
  embed : Bool

/-- Explicit source marker kind of a parameter, when present. -/
def markerKind : DefaultSlot → Option SourceKind
  | .marker m => some m.kind
  | _ => none

/-- Native-language (or explicit parameter) default of a parameter:
a plain Python default, or the value given to a marker (Ellipsis means
required, hence no default). -/
def nativeDefaultOf : DefaultSlot → Option Value
  | .empty => none
  | .plain v => some v
  | .marker m =>
    match m.info.default with
    | .ellipsis => none
    | .val v => some v

/-- Explicit schema or validation-field object supplied by the caller via
the marker's model argument, when present. -/
def explicitModelOf : DefaultSlot → Option SchemaNode
  | .marker m => m.info.model
  | _ => none

/-- Deprecated flag taken from the marker, when present. -/
def deprecatedOf : DefaultSlot → Option Bool
  | .marker m => m.info.deprecated
  | _ => none

/-- Include-in-docs flag taken from the marker; True when no marker is
given, matching the FieldInfo default argument. -/
def includeInSchemaOf : DefaultSlot → Bool
  | .marker m => m.info.include_in_schema
  | _ => true

/-- Modelled from the spec: classification of one parameter (spec section
4.2): an explicit source marker wins when present; otherwise a parameter
whose name appears in the route's path template is a Path parameter, a
composite-record-typed parameter defaults to Body, and a primitive-typed
parameter defaults to Query. -/
def classify (pathVars : List String) (p : DeclaredParam) : SourceKind :=
  match markerKind p.slot with
  | some k => k
  | none =>
    if p.name ∈ pathVars then .path
    else if isComposite p.ty then .body
    else .query

/-- Modelled from the spec: the inference engine contract of spec section
4.1: an explicit schema or validation-field object supplied by the caller
is used verbatim and type inference is skipped entirely; otherwise the
annotation is mapped structurally. -/
def infer (ty : TyAnn) (explicitModel : Option SchemaNode) :
    Except SchemaInferenceError SchemaNode :=
  match explicitModel with
  | some s => .ok s
  | none => inferFromType ty

/-- One compiled Parameter Descriptor (spec section 3): name, source kind,
schema node, reconciled default, required flag, deprecated flag,
include-in-schema flag and embed flag.  Immutable after compilation. -/
structure ParamDescriptor where
  name : String
  source : SourceKind
  schema : SchemaNode
  default : Option Value
  required : Bool
  deprecated : Option Bool
  include_in_schema : Bool
  embed : Bool

/-- Modelled from the spec: compilation of one declared parameter into a
Parameter Descriptor: the schema comes from the inference engine, the
descriptor default is the native-language default reconciled over the
schema-library default (docs/design_ideas.md: the Python or parameter
default is always honored over the marshmallow default), and the
parameter is required only when no default exists and the schema is
required. -/
def compileParam (pathVars : List String) (p : DeclaredParam) :
    Except SchemaInferenceError ParamDescriptor :=
  match infer p.ty (explicitModelOf p.slot) with
  | .error e => .error (SchemaInferenceError.mk (p.name :: e.path) e.msg)
  | .ok schema =>
    .ok (ParamDescriptor.mk p.name (classify pathVars p) schema
      (firstSome (nativeDefaultOf p.slot) schema.libDefault)
      ((firstSome (nativeDefaultOf p.slot) schema.libDefault).isNone && schema.required)
      (deprecatedOf p.slot) (includeInSchemaOf p.slot) p.embed)

/-- Compilation of the declared parameter list in declaration order,
failing on the first inference failure. -/
def compileParams (pathVars : List String) : List DeclaredParam →
    Except SchemaInferenceError (List ParamDescriptor)
  | [] => .ok []
  | p :: rest =>
    match compileParam pathVars p, compileParams pathVars rest with
    | .ok d, .ok ds => .ok (d :: ds)
    | .error e, _ => .error e
    | .ok _, .error e => .error e

/-- Whether a string list contains a duplicate entry. -/
def hasDup : List String → Bool
  | [] => false
  | x :: rest => rest.contains x || hasDup rest

/-- A compile-time route registration failure (spec section 7): a
SchemaInferenceError or a signature-introspection/body-merge conflict. -/
inductive CompileError where
  | inference (e : SchemaInferenceError)
  | duplicateParams (names : List String)
deriving Repr

/-- The Endpoint Compiled Model (spec section 3): method, path template,
ordered Parameter Descriptors, merged body schema, response schema node or
none, and declared status code.  Created once at registration; immutable
thereafter. -/
structure CompiledModel where
  method : String
  pathTemplate : String
  descriptors : List ParamDescriptor
  bodySchema : Option SchemaNode
  responseSchema : Option SchemaNode
  statusCode : Nat

/-- Body finalization (spec section 4.2): when more than one parameter is
classified as Body, every Body parameter is extracted nested under its
own name, so the merged synthetic schema is one JSON-body-shaped object;
a single Body parameter keeps its explicit embed flag. -/
def finalizeBody (ds : List ParamDescriptor) : List ParamDescriptor :=
  if 1 < (ds.filter (fun d => d.source == SourceKind.body)).length then
    ds.map (fun d => if d.source == SourceKind.body then { d with embed := true } else d)
  else ds

/-- Modelled from the spec: the merged request-body schema (spec section
4.2): several Body parameters merge into one synthetic composite schema
whose field names are the parameter names; a single un-embedded Body
parameter is passed through un-nested; a single embedded Body parameter
nests under its parameter name. -/
def computeBodySchema : List ParamDescriptor → Option SchemaNode
  | [] => none
  | [d] =>
    if d.embed then some (.record [(d.name, d.schema)] true none none)
    else some d.schema
  | ds => some (.record (ds.map (fun d => (d.name, d.schema))) true none none)

/-- Inference of the response schema from the return annotation (spec
section 4.2): a no-value return annotation yields no response schema. -/
def inferResponse : Option TyAnn → Except SchemaInferenceError (Option SchemaNode)
  | none => .ok none
  | some t =>
    match inferFromType t with
    | .ok s => .ok (some s)
    | .error e => .error e

/-- Status code resolution (spec section 4.4): an omitted status code
defaults to 200, or 204 when the return annotation is the no-value kind. -/
def resolveStatus : Option Nat → Option TyAnn → Nat
  | some n, _ => n
  | none, none => 204
  | none, some _ => 200

/-- Modelled from the spec: endpoint compilation (spec section 4.2):
inspect the parameter list in declaration order, classify and infer every
parameter, reject duplicate parameter names, merge Body parameters, and
infer the response schema; any failure is a registration-time error. -/
def compile (method pathTemplate : String) (pathVars : List String)
    (ps : List DeclaredParam) (returnTy : Option TyAnn) (statusOpt : Option Nat) :
    Except CompileError CompiledModel :=
  if hasDup (ps.map DeclaredParam.name) then
    .error (.duplicateParams (ps.map DeclaredParam.name))
  else
    match compileParams pathVars ps with
    | .error e => .error (.inference e)
    | .ok ds =>
      match inferResponse returnTy with
      | .error e => .error (.inference e)
      | .ok rs =>
        .ok (CompiledModel.mk method pathTemplate (finalizeBody ds)
          (computeBodySchema (ds.filter (fun d => d.source == SourceKind.body)))
          rs (resolveStatus statusOpt returnTy))

/-- The process-wide route registry, keyed by (method, path template). -/
abbrev Registry := List ((String × String) × CompiledModel)

/-- Modelled from the spec: route registration (spec sections 4.2 and 6):
compile the endpoint and add the compiled model to the registry; a
compilation failure is raised synchronously and the route is never
added. -/
def addRoute (reg : Registry) (method pathTemplate : String)
    (pathVars : List String) (ps : List DeclaredParam)
    (returnTy : Option TyAnn) (statusOpt : Option Nat) :
    Except CompileError Registry :=
  match compile method pathTemplate pathVars ps returnTy statusOpt with
  | .error e => .error e
  | .ok m => .ok (reg ++ [((method, pathTemplate), m)])

/-- A Validation Error Entry (spec section 3): source kind, field path
from the parameter root, and message. -/
structure ErrEntry where
  source : SourceKind
  loc : List String
  msg : String
deriving Repr, DecidableEq

/-- The live request abstraction (spec section 6): extracted path
parameters, query string, headers, cookies, parsed JSON body, form fields
and uploaded files. -/
structure Request where
  pathParams : List (String × String)
  queryParams : List (String × String)
  headers : List (String × String)
  cookies : List (String × String)
  body : Option Value
  formFields : List (String × String)
  files : List (String × String)

/-- Modelled from the spec: raw value extraction (spec section 4.3 step
1): a named key from the source indicated by the descriptor's source
kind; a Body descriptor reads the whole parsed body, or the named key of
the body object when the descriptor is embedded. -/
def extractRaw (req : Request) (d : ParamDescriptor) : Option Value :=
  match d.source with
  | .path => (lookupStr d.name req.pathParams).map Value.vStr
  | .query => (lookupStr d.name req.queryParams).map Value.vStr
  | .header => (lookupStr d.name req.headers).map Value.vStr
  | .cookie => (lookupStr d.name req.cookies).map Value.vStr
  | .form => (lookupStr d.name req.formFields).map Value.vStr
  | .file => (lookupStr d.name req.files).map Value.vStr
  | .body =>
    match req.body with
    | none => none
    | some b =>
      if d.embed then
        match b with
        | .vObj o => lookupKV d.name o
        | _ => none
      else some b

/-- Modelled from the spec: binding of one Parameter Descriptor (spec
section 4.3 steps 1-4): absent raw values fall back to the descriptor's
reconciled default or fail as a missing required field; present raw
values are deserialized against the schema node, mapping every
schema-library failure to a Validation Error Entry whose field path is
the parameter name followed by the nested path. -/
def bindOne (req : Request) (d : ParamDescriptor) :
    Except (List ErrEntry) (Option (String × Value)) :=
  match extractRaw req d with
  | none =>
    match d.default with
    | some v => .ok (some (d.name, v))
    | none =>
      if d.required then
        .error [ErrEntry.mk d.source [d.name] "Missing data for required field."]
      else .ok none
  | some raw =>
    match deserialize d.schema raw with
    | .ok v => .ok (some (d.name, v))
    | .error es =>
      .error (es.map (fun (pe : PathErr) => ErrEntry.mk d.source (d.name :: pe.1) pe.2))

/-- The Validation Error Entries recorded for one descriptor (empty when
the descriptor binds successfully). -/
def bindErrs (req : Request) (d : ParamDescriptor) : List ErrEntry :=
  match bindOne req d with
  | .error es => es
  | .ok _ => []

/-- Whether one descriptor fails validation on the given request. -/
def bindFails (req : Request) (d : ParamDescriptor) : Bool :=
  match bindOne req d with
  | .error _ => true
  | .ok _ => false

/-- Modelled from the spec: the per-descriptor loop of the Request Binder
(spec section 4.3), executed in declared parameter order, continuing past
individual failures, returning all collected Validation Error Entries and
the successful argument bindings. -/
def bindParams (req : Request) : List ParamDescriptor →
    List ErrEntry × List (String × Value)
  | [] => ([], [])
  | d :: rest =>
    match bindOne req d, bindParams req rest with
    | .ok (some kv), (errs, args) => (errs, kv :: args)
    | .ok none, (errs, args) => (errs, args)
    | .error es, (errs, args) => (es ++ errs, args)

/-- Modelled from the spec: the Request Binder contract (spec section
4.3): after all descriptors are processed, binding fails as a unit with
all collected entries when any were recorded, and otherwise returns the
complete Argument Set. -/
def bindRequest (m : CompiledModel) (req : Request) :
    Except (List ErrEntry) (List (String × Value)) :=
  match bindParams req m.descriptors with
  | ([], args) => .ok args
  | (e :: es, _) => .error (e :: es)

/-- A wire response (spec sections 4.4 and 6): a success with status and
body, a 422 aggregated validation failure, or a server fault for a
business-logic contract violation. -/
inductive WireResponse where
  | success (status : Nat) (body : Value)
  | validationFailure (status : Nat) (errors : List ErrEntry)
  | serverFault (status : Nat) (detail : String)

/-- Detail message of a business-logic contract violation. -/
def contractViolationMsg : String :=
  "business logic return value does not match its declared response schema"

/-- Modelled from the spec: the Response Serializer (spec section 4.4):
with no declared response schema the raw return value passes through
unchanged; with a declared schema the return value is dumped through it,
and a shape mismatch is a server-side contract violation surfaced as an
internal error, never a client validation error. -/
def serializeResponse (rs : Option SchemaNode) (status : Nat) (ret : Value) :
    WireResponse :=
  match rs with
  | none => .success status ret
  | some s =>
    match dump s ret with
    | .ok v => .success status v
    | .error _ => .serverFault 500 contractViolationMsg

/-- Modelled from the spec: the request-time pipeline (spec sections 4.3
and 4.4): bind the request, and either respond 422 with the aggregated
entries without ever invoking the business callable, or invoke it exactly
once and serialize its return value.  The first component counts business
callable invocations. -/
def handleRequest (m : CompiledModel) (handler : List (String × Value) → Value)
    (req : Request) : Nat × WireResponse :=
  match bindRequest m req with
  | .error errs => (0, .validationFailure 422 errs)
  | .ok args => (1, serializeResponse m.responseSchema m.statusCode (handler args))

/-- The Schema Node reached by following a field path from a root node. -/
def nodeAt : SchemaNode → List String → Option SchemaNode
  | s, [] => some s
  | .record fs _ _ _, k :: rest =>
    match lookupField k fs with
    | some s2 => nodeAt s2 rest
    | none => none
  | .prim _ _ _ _, _ :: _ => none

/-- The value reached by following a key path inside a value. -/
def getPath : Value → List String → Option Value
  | v, [] => some v
  | .vObj o, k :: rest =>
    match lookupKV k o with
    | some v2 => getPath v2 rest
    | none => none
  | _, _ :: _ => none

/-- Whether the final key of a nonempty path is absent from the input: all
intermediate keys resolve to objects and the last object lacks the last
key. -/
def absentAt : Value → List String → Bool
  | .vObj o, [k] => (lookupKV k o).isNone
  | .vObj o, k :: k2 :: rest =>
    match lookupKV k o with
    | some v2 => absentAt v2 (k2 :: rest)
    | none => false
  | _, _ => false

example : absentAt (.vObj [("pet", .vObj [("name", .vStr "Rex")])]) ["pet", "age"] = true := rfl

example : nodeAt (.record [("pet", .record [("age", .prim .pInt false (some (.vInt 1)) (some (.vInt 9)))] true none none)] true none none) ["pet", "age"]
    = some (.prim .pInt false (some (.vInt 1)) (some (.vInt 9))) := rfl

/-- The native type annotation corresponding to one primitive type. -/
def tyOfPrim : PrimType → TyAnn
  | .pInt => .tInt
  | .pStr => .tStr
  | .pBool => .tBool

/-- Claim C10: all seven source-kind markers (Path, Query, Header, Cookie,
Body, Form, File) are subclasses of the single FieldInfo type adding no
fields of their own: constructed with the same metadata (a mandatory
positional default plus optional deprecated, include_in_schema and model)
they carry the identical FieldInfo, and the source kind of a parameter is
carried solely by which subclass is used (the seven kinds are pairwise
distinct). -/
theorem markers_share_single_fieldinfo (d : ParamDefault) (dep : Option Bool)
    (inc : Bool) (mo : Option SchemaNode) :
    ([mkPath d dep inc mo, mkQuery d dep inc mo, mkHeader d dep inc mo,
      mkCookie d dep inc mo, mkBody d dep inc mo, mkForm d dep inc mo,
      mkFile d dep inc mo].map ParamMarker.info
      = List.replicate 7 (FieldInfo.mk d dep inc mo))
    ∧ ([mkPath d dep inc mo, mkQuery d dep inc mo, mkHeader d dep inc mo,
      mkCookie d dep inc mo, mkBody d dep inc mo, mkForm d dep inc mo,
      mkFile d dep inc mo].map ParamMarker.kind
      = [SourceKind.path, .query, .header, .cookie, .body, .form, .file])
    ∧ ([SourceKind.path, .query, .header, .cookie, .body, .form,
        .file] : List SourceKind).Nodup :=
  ⟨rfl, rfl, by decide⟩

/-- Claim C9: every marker constructed without an explicit
include_in_schema argument has include_in_schema equal to True, and the
Parameter Descriptor compiled from a parameter carrying such a marker
keeps the flag True, so by default every declared parameter is included
in the generated documentation schema. -/
theorem include_in_schema_defaults_true (d : ParamDefault) :
    ((mkPath d).info.include_in_schema = true
     ∧ (mkQuery d).info.include_in_schema = true
     ∧ (mkHeader d).info.include_in_schema = true
     ∧ (mkCookie d).info.include_in_schema = true
     ∧ (mkBody d).info.include_in_schema = true
     ∧ (mkForm d).info.include_in_schema = true
     ∧ (mkFile d).info.include_in_schema = true)
    ∧ ∀ (pathVars : List String) (p : DeclaredParam) (m : ParamMarker)
        (desc : ParamDescriptor),
        p.slot = DefaultSlot.marker m → m.info.include_in_schema = true →
        compileParam pathVars p = .ok desc → desc.include_in_schema = true := by
  refine ⟨⟨rfl, rfl, rfl, rfl, rfl, rfl, rfl⟩, ?_⟩
  intro pathVars p m desc hslot hinc hok
  unfold compileParam at hok
  cases hinf : infer p.ty (explicitModelOf p.slot) with
  | error e => rw [hinf] at hok; exact absurd hok (by simp)
  | ok schema =>
    rw [hinf] at hok
    simp only [Except.ok.injEq] at hok
    subst hok
    simp [includeInSchemaOf, hslot, hinc]

/-- Witness for claim C9 at a concrete parameter: a Query marker built
with only its positional default argument. -/
theorem include_in_schema_defaults_true_witness :
    (DeclaredParam.mk "q" TyAnn.tStr
        (DefaultSlot.marker (mkQuery (ParamDefault.val Value.vNull))) false).slot
      = DefaultSlot.marker (mkQuery (ParamDefault.val Value.vNull))
    ∧ (mkQuery (ParamDefault.val Value.vNull)).info.include_in_schema = true
    ∧ compileParam [] (DeclaredParam.mk "q" TyAnn.tStr
        (DefaultSlot.marker (mkQuery (ParamDefault.val Value.vNull))) false)
      = Except.ok (ParamDescriptor.mk "q" SourceKind.query
          (SchemaNode.prim PrimType.pStr true none none)
          (some Value.vNull) false none true false)
    ∧ (ParamDescriptor.mk "q" SourceKind.query
        (SchemaNode.prim PrimType.pStr true none none)
        (some Value.vNull) false none true false).include_in_schema = true :=
  ⟨rfl, rfl, rfl,
    (include_in_schema_defaults_true (ParamDefault.val Value.vNull)).2
      [] (DeclaredParam.mk "q" TyAnn.tStr
        (DefaultSlot.marker (mkQuery (ParamDefault.val Value.vNull))) false)
      (mkQuery (ParamDefault.val Value.vNull))
      (ParamDescriptor.mk "q" SourceKind.query
        (SchemaNode.prim PrimType.pStr true none none)
        (some Value.vNull) false none true false)
      rfl rfl rfl⟩

/-- Claim C5: a parameter declared with an explicit schema or
validation-field object uses that object verbatim as its Schema Node; no
type inference is performed from the annotation, so the inferred schema
is the same for every annotation, and the compiled descriptor's schema is
exactly the supplied object. -/
theorem explicit_schema_wins (pathVars : List String) (p : DeclaredParam)
    (s : SchemaNode) (desc : ParamDescriptor)
    (hm : explicitModelOf p.slot = some s)
    (hok : compileParam pathVars p = .ok desc) :
    desc.schema = s ∧ ∀ ty2 : TyAnn, infer ty2 (some s) = .ok s := by
  constructor
  · unfold compileParam at hok
    rw [hm] at hok
    simp only [infer] at hok
    simp only [Except.ok.injEq] at hok
    subst hok
    rfl
  · intro ty2; rfl

/-- Witness for claim C5: an explicit string field supplied through the
model argument of a Body marker wins even over an unmappable annotation. -/
theorem explicit_schema_wins_witness :
    explicitModelOf (DeclaredParam.mk "email" (TyAnn.tUnsupported "EmailStr")
        (DefaultSlot.marker (mkBody (ParamDefault.val Value.vNull) none true
          (some (SchemaNode.prim PrimType.pStr true none none)))) false).slot
      = some (SchemaNode.prim PrimType.pStr true none none)
    ∧ compileParam [] (DeclaredParam.mk "email" (TyAnn.tUnsupported "EmailStr")
        (DefaultSlot.marker (mkBody (ParamDefault.val Value.vNull) none true
          (some (SchemaNode.prim PrimType.pStr true none none)))) false)
      = Except.ok (ParamDescriptor.mk "email" SourceKind.body
          (SchemaNode.prim PrimType.pStr true none none)
          (some Value.vNull) false none true false)
    ∧ (ParamDescriptor.mk "email" SourceKind.body
        (SchemaNode.prim PrimType.pStr true none none)
        (some Value.vNull) false none true false).schema
      = SchemaNode.prim PrimType.pStr true none none :=
  ⟨rfl, rfl,
    (explicit_schema_wins []
      (DeclaredParam.mk "email" (TyAnn.tUnsupported "EmailStr")
        (DefaultSlot.marker (mkBody (ParamDefault.val Value.vNull) none true
          (some (SchemaNode.prim PrimType.pStr true none none)))) false)
      (SchemaNode.prim PrimType.pStr true none none)
      (ParamDescriptor.mk "email" SourceKind.body
        (SchemaNode.prim PrimType.pStr true none none)
        (some Value.vNull) false none true false)
      rfl rfl).1⟩

/-- Claim C7: with a declared response schema, a return value whose shape
does not match is surfaced as a server-side contract violation (a 5xx
internal error), never as a client validation failure; with no declared
response schema the return value passes to the wire encoder unchanged
with no validation.  The endpoint pipeline surfaces the fault after
invoking the business callable exactly once. -/
theorem response_contract (rs : Option SchemaNode) (status : Nat) (ret : Value) :
    (rs = none → serializeResponse rs status ret = .success status ret)
    ∧ (∀ (s : SchemaNode) (es : List PathErr), rs = some s → dump s ret = .error es →
        serializeResponse rs status ret = .serverFault 500 contractViolationMsg
        ∧ 500 / 100 = 5
        ∧ ∀ (st2 : Nat) (errs : List ErrEntry),
            serializeResponse rs status ret ≠ .validationFailure st2 errs)
    ∧ (∀ (m : CompiledModel) (handler : List (String × Value) → Value)
        (req : Request) (args : List (String × Value)) (s : SchemaNode)
        (es : List PathErr),
        bindRequest m req = .ok args → m.responseSchema = some s →
        dump s (handler args) = .error es →
        handleRequest m handler req = (1, .serverFault 500 contractViolationMsg)) := by
  refine ⟨?_, ?_, ?_⟩
  · intro h; subst h; rfl
  · intro s es hs hd
    subst hs
    refine ⟨by simp [serializeResponse, hd], by norm_num, ?_⟩
    intro st2 errs
    simp [serializeResponse, hd]
  · intro m handler req args s es hb hrs hd
    simp [handleRequest, hb, serializeResponse, hrs, hd]

/-- Witness for claim C7: an endpoint declaring an integer response whose
business callable returns a string is surfaced as a 500 server fault. -/
theorem response_contract_witness :
    bindRequest (CompiledModel.mk "GET" "/x" [] none
        (some (SchemaNode.prim PrimType.pInt true none none)) 200)
      (Request.mk [] [] [] [] none [] [])
      = Except.ok []
    ∧ dump (SchemaNode.prim PrimType.pInt true none none) (Value.vStr "oops")
      = Except.error [([], "Not a valid integer.")]
    ∧ handleRequest (CompiledModel.mk "GET" "/x" [] none
        (some (SchemaNode.prim PrimType.pInt true none none)) 200)
      (fun _ => Value.vStr "oops") (Request.mk [] [] [] [] none [] [])
      = (1, .serverFault 500 contractViolationMsg) :=
  ⟨rfl, rfl,
    (response_contract (some (SchemaNode.prim PrimType.pInt true none none))
      200 Value.vNull).2.2
      (CompiledModel.mk "GET" "/x" [] none
        (some (SchemaNode.prim PrimType.pInt true none none)) 200)
      (fun _ => Value.vStr "oops") (Request.mk [] [] [] [] none [] [])
      [] (SchemaNode.prim PrimType.pInt true none none)
      [([], "Not a valid integer.")] rfl rfl rfl⟩

/-- Claim C8: for every primitive type and every valid native value of
that type, deserializing the value through the schema inferred for the
type and then serializing the result yields the value back (the
deserialize-then-serialize round trip is the identity on valid primitive
values). -/
theorem primitive_roundtrip (t : PrimType) (v : Value)
    (h : validPrim t v = true) :
    ∃ s, inferFromType (tyOfPrim t) = .ok s
      ∧ deserialize s v = .ok v ∧ dump s v = .ok v := by
  cases t <;> cases v <;> simp_all [validPrim] <;>
    exact ⟨_, rfl, by simp [deserialize, coercePrim], by simp [dump, validPrim]⟩

/-- Witness for claim C8 at the integer 42. -/
theorem primitive_roundtrip_witness :
    validPrim PrimType.pInt (Value.vInt 42) = true
    ∧ ∃ s, inferFromType (tyOfPrim PrimType.pInt) = .ok s
      ∧ deserialize s (Value.vInt 42) = .ok (Value.vInt 42)
      ∧ dump s (Value.vInt 42) = .ok (Value.vInt 42) :=
  ⟨rfl, primitive_roundtrip PrimType.pInt (Value.vInt 42) rfl⟩

/-- Projections of a successfully compiled Parameter Descriptor: name,
classification, schema, reconciled default, required flag and marker
metadata are those computed from the declared parameter. -/
theorem compileParam_ok_spec (pathVars : List String) (p : DeclaredParam)
    (d : ParamDescriptor) (hok : compileParam pathVars p = .ok d) :
    d.name = p.name ∧ d.source = classify pathVars p
    ∧ infer p.ty (explicitModelOf p.slot) = .ok d.schema
    ∧ d.default = firstSome (nativeDefaultOf p.slot) d.schema.libDefault
    ∧ d.required = ((firstSome (nativeDefaultOf p.slot) d.schema.libDefault).isNone
        && d.schema.required)
    ∧ d.deprecated = deprecatedOf p.slot
    ∧ d.include_in_schema = includeInSchemaOf p.slot
    ∧ d.embed = p.embed := by
  unfold compileParam at hok
  cases hinf : infer p.ty (explicitModelOf p.slot) with
  | error e => rw [hinf] at hok; simp at hok
  | ok schema =>
    rw [hinf] at hok
    simp only [Except.ok.injEq] at hok
    subst hok
    exact ⟨rfl, rfl, rfl, rfl, rfl, rfl, rfl, rfl⟩

/-- Successful parameter-list compilation is an elementwise correspondence
in declaration order. -/
theorem compileParams_forall2 (pathVars : List String) :
    ∀ (ps : List DeclaredParam) (ds : List ParamDescriptor),
    compileParams pathVars ps = .ok ds →
    List.Forall₂ (fun p d => compileParam pathVars p = .ok d) ps ds := by
  intro ps
  induction ps with
  | nil =>
    intro ds h
    simp only [compileParams, Except.ok.injEq] at h
    subst h
    exact List.Forall₂.nil
  | cons p rest ih =>
    intro ds h
    unfold compileParams at h
    cases hp : compileParam pathVars p with
    | error e => rw [hp] at h; simp at h
    | ok d =>
      cases hr : compileParams pathVars rest with
      | error e => rw [hp, hr] at h; simp at h
      | ok ds2 =>
        rw [hp, hr] at h
        simp only [Except.ok.injEq] at h
        subst h
        exact List.Forall₂.cons hp (ih ds2 hr)

/-- Body finalization only ever changes embed flags: every other
descriptor component is preserved positionally. -/
theorem finalizeBody_profile (ds : List ParamDescriptor) :
    List.Forall₂ (fun d d2 => d2.name = d.name ∧ d2.source = d.source
      ∧ d2.schema = d.schema ∧ d2.default = d.default ∧ d2.required = d.required
      ∧ d2.deprecated = d.deprecated ∧ d2.include_in_schema = d.include_in_schema)
      ds (finalizeBody ds) := by
  unfold finalizeBody
  split
  · rw [List.forall₂_map_right_iff]
    rw [List.forall₂_same]
    intro x hx
    by_cases hb : x.source == SourceKind.body <;> simp [hb]
  · rw [List.forall₂_same]
    intro x hx
    exact ⟨rfl, rfl, rfl, rfl, rfl, rfl, rfl⟩

/-- Composition of two elementwise list correspondences. -/
theorem forall2_trans_comp {α β γ : Type} {r1 : α → β → Prop} {r2 : β → γ → Prop}
    {l1 : List α} {l2 : List β} {l3 : List γ}
    (h1 : List.Forall₂ r1 l1 l2) (h2 : List.Forall₂ r2 l2 l3) :
    List.Forall₂ (fun a c => ∃ b, r1 a b ∧ r2 b c) l1 l3 := by
  induction h1 generalizing l3 with
  | nil => cases h2; exact List.Forall₂.nil
  | cons ha hrest ih =>
    cases h2 with
    | cons hb hrest2 => exact List.Forall₂.cons ⟨_, ha, hb⟩ (ih hrest2)

/-- Anatomy of a successful endpoint compilation. -/
theorem compile_ok_parts (method pathTemplate : String) (pathVars : List String)
    (ps : List DeclaredParam) (returnTy : Option TyAnn) (statusOpt : Option Nat)
    (m : CompiledModel)
    (hok : compile method pathTemplate pathVars ps returnTy statusOpt = .ok m) :
    ∃ ds rs, hasDup (ps.map DeclaredParam.name) = false
      ∧ compileParams pathVars ps = .ok ds
      ∧ inferResponse returnTy = .ok rs
      ∧ m.descriptors = finalizeBody ds
      ∧ m.bodySchema
          = computeBodySchema (ds.filter (fun d => d.source == SourceKind.body))
      ∧ m.responseSchema = rs
      ∧ m.statusCode = resolveStatus statusOpt returnTy := by
  unfold compile at hok
  split at hok
  · simp at hok
  · rename_i hdup
    cases hps : compileParams pathVars ps with
    | error e => rw [hps] at hok; simp at hok
    | ok ds =>
      cases hrs : inferResponse returnTy with
      | error e => rw [hps, hrs] at hok; simp at hok
      | ok rs =>
        rw [hps, hrs] at hok
        simp only [Except.ok.injEq] at hok
        subst hok
        exact ⟨ds, rs, by simpa using hdup, rfl, rfl, rfl, rfl, rfl, rfl⟩

/-- Claim C4: parameter-source classification is deterministic and
positionally realized by endpoint compilation: each compiled descriptor
carries its parameter's name, an explicit source marker wins when
present, and otherwise a parameter named in the route's path template is
a Path parameter, a composite-record-typed parameter is a Body parameter,
and a primitive-typed parameter is a Query parameter. -/
theorem classification_rule (method pathTemplate : String) (pathVars : List String)
    (ps : List DeclaredParam) (returnTy : Option TyAnn) (statusOpt : Option Nat)
    (m : CompiledModel)
    (hok : compile method pathTemplate pathVars ps returnTy statusOpt = .ok m) :
    List.Forall₂ (fun p d => d.name = p.name ∧ d.source =
      (match markerKind p.slot with
       | some k => k
       | none =>
         if p.name ∈ pathVars then SourceKind.path
         else if isComposite p.ty then SourceKind.body
         else SourceKind.query)) ps m.descriptors := by
  obtain ⟨ds, rs, hdup, hps, hrs, hdesc, _⟩ :=
    compile_ok_parts method pathTemplate pathVars ps returnTy statusOpt m hok
  rw [hdesc]
  have h3 := forall2_trans_comp (compileParams_forall2 pathVars ps ds hps)
    (finalizeBody_profile ds)
  refine h3.imp ?_
  intro p d hpd
  obtain ⟨d0, hok0, hprof⟩ := hpd
  have hs := compileParam_ok_spec pathVars p d0 hok0
  refine ⟨by rw [hprof.1, hs.1], ?_⟩
  rw [hprof.2.1, hs.2.1]
  rfl

/-- Witness for claim C4: the endpoint GET /items/\x7bitem_id\x7d with
item_id : int (no marker, named in the path template) and q : Optional
str = None (no marker, primitive) compiles to a Path and a Query
descriptor; /items/42 binds the full argument set and /items/abc yields
exactly one path-sourced Validation Error Entry for item_id. -/
theorem classification_rule_witness :
    compile "GET" "/items/\x7bitem_id\x7d" ["item_id"]
      [DeclaredParam.mk "item_id" TyAnn.tInt DefaultSlot.empty false,
       DeclaredParam.mk "q" (TyAnn.tOptional TyAnn.tStr)
         (DefaultSlot.plain Value.vNull) false] none none
      = Except.ok (CompiledModel.mk "GET" "/items/\x7bitem_id\x7d"
          [ParamDescriptor.mk "item_id" SourceKind.path
            (SchemaNode.prim PrimType.pInt true none none) none true none true false,
           ParamDescriptor.mk "q" SourceKind.query
            (SchemaNode.prim PrimType.pStr false none none)
            (some Value.vNull) false none true false]
          none none 204)
    ∧ List.Forall₂ (fun p d => d.name = p.name ∧ d.source =
        (match markerKind p.slot with
         | some k => k
         | none =>
           if p.name ∈ ["item_id"] then SourceKind.path
           else if isComposite p.ty then SourceKind.body
           else SourceKind.query))
      [DeclaredParam.mk "item_id" TyAnn.tInt DefaultSlot.empty false,
       DeclaredParam.mk "q" (TyAnn.tOptional TyAnn.tStr)
         (DefaultSlot.plain Value.vNull) false]
      (CompiledModel.mk "GET" "/items/\x7bitem_id\x7d"
          [ParamDescriptor.mk "item_id" SourceKind.path
            (SchemaNode.prim PrimType.pInt true none none) none true none true false,
           ParamDescriptor.mk "q" SourceKind.query
            (SchemaNode.prim PrimType.pStr false none none)
            (some Value.vNull) false none true false]
          none none 204).descriptors
    ∧ bindRequest (CompiledModel.mk "GET" "/items/\x7bitem_id\x7d"
          [ParamDescriptor.mk "item_id" SourceKind.path
            (SchemaNode.prim PrimType.pInt true none none) none true none true false,
           ParamDescriptor.mk "q" SourceKind.query
            (SchemaNode.prim PrimType.pStr false none none)
            (some Value.vNull) false none true false]
          none none 204)
        (Request.mk [("item_id", "42")] [] [] [] none [] [])
      = Except.ok [("item_id", Value.vInt 42), ("q", Value.vNull)]
    ∧ bindRequest (CompiledModel.mk "GET" "/items/\x7bitem_id\x7d"
          [ParamDescriptor.mk "item_id" SourceKind.path
            (SchemaNode.prim PrimType.pInt true none none) none true none true false,
           ParamDescriptor.mk "q" SourceKind.query
            (SchemaNode.prim PrimType.pStr false none none)
            (some Value.vNull) false none true false]
          none none 204)
        (Request.mk [("item_id", "abc")] [] [] [] none [] [])
      = Except.error [ErrEntry.mk SourceKind.path ["item_id"] "Not a valid integer."] :=
  ⟨rfl,
   classification_rule "GET" "/items/\x7bitem_id\x7d" ["item_id"]
      [DeclaredParam.mk "item_id" TyAnn.tInt DefaultSlot.empty false,
       DeclaredParam.mk "q" (TyAnn.tOptional TyAnn.tStr)
         (DefaultSlot.plain Value.vNull) false] none none
      (CompiledModel.mk "GET" "/items/\x7bitem_id\x7d"
          [ParamDescriptor.mk "item_id" SourceKind.path
            (SchemaNode.prim PrimType.pInt true none none) none true none true false,
           ParamDescriptor.mk "q" SourceKind.query
            (SchemaNode.prim PrimType.pStr false none none)
            (some Value.vNull) false none true false]
          none none 204) rfl,
   rfl, rfl⟩

mutual

/-- A type annotation containing an unmappable type cannot be inferred:
inference surfaces a SchemaInferenceError. -/
theorem hasUnsupported_infer_error : (ty : TyAnn) → hasUnsupported ty = true →
    ∃ e, inferFromType ty = .error e
  | .tInt, h => by simp [hasUnsupported] at h
  | .tStr, h => by simp [hasUnsupported] at h
  | .tBool, h => by simp [hasUnsupported] at h
  | .tOptional inner, h => by
    have h2 : hasUnsupported inner = true := h
    obtain ⟨e, he⟩ := hasUnsupported_infer_error inner h2
    exact ⟨e, by simp [inferFromType, he]⟩
  | .tRecord n fields, h => by
    have h2 : hasUnsupportedFields fields = true := h
    obtain ⟨e, he⟩ := hasUnsupportedFields_error fields h2
    exact ⟨e, by simp [inferFromType, he]⟩
  | .tUnsupported d, _ => ⟨SchemaInferenceError.mk [] ("cannot map type: " ++ d), rfl⟩

/-- A record field list containing an unmappable type cannot be inferred. -/
theorem hasUnsupportedFields_error :
    (fields : List (String × TyAnn × Option Value × Option Value)) →
    hasUnsupportedFields fields = true → ∃ e, inferFields fields = .error e
  | [], h => by simp [hasUnsupportedFields] at h
  | (name, ty, nd, ld) :: rest, h => by
    cases hty : inferFromType ty with
    | error e =>
      exact ⟨SchemaInferenceError.mk (name :: e.path) e.msg, by
        simp [inferFields, hty]⟩
    | ok s =>
      have h2 : (hasUnsupported ty || hasUnsupportedFields rest) = true := h
      have hrest : hasUnsupportedFields rest = true := by
        cases ht : hasUnsupported ty with
        | true =>
          obtain ⟨e, he⟩ := hasUnsupported_infer_error ty ht
          rw [hty] at he
          exact absurd he (by simp)
        | false => simpa [ht] using h2
      obtain ⟨e, he⟩ := hasUnsupportedFields_error rest hrest
      exact ⟨e, by simp [inferFields, hty, he]⟩

end

/-- A parameter list containing an unmappable annotation without an
explicit model override fails parameter compilation. -/
theorem compileParams_error_of_unsupported (pathVars : List String) :
    ∀ ps : List DeclaredParam,
    (∃ p ∈ ps, hasUnsupported p.ty = true ∧ explicitModelOf p.slot = none) →
    ∃ e, compileParams pathVars ps = .error e := by
  intro ps
  induction ps with
  | nil => rintro ⟨p, hp, _⟩; cases hp
  | cons q rest ih =>
    rintro ⟨p, hp, hbad, hmodel⟩
    cases hq : compileParam pathVars q with
    | error e => exact ⟨e, by simp [compileParams, hq]⟩
    | ok d =>
      rcases List.mem_cons.mp hp with heq | hmem
      · subst heq
        obtain ⟨e0, he0⟩ := hasUnsupported_infer_error p.ty hbad
        have : compileParam pathVars p
            = .error (SchemaInferenceError.mk (p.name :: e0.path) e0.msg) := by
          unfold compileParam
          rw [show infer p.ty (explicitModelOf p.slot) = .error e0 by
            rw [hmodel]; exact he0]
        rw [this] at hq
        exact absurd hq (by simp)
      · obtain ⟨e, he⟩ := ih ⟨p, hmem, hbad, hmodel⟩
        exact ⟨e, by simp [compileParams, hq, he]⟩

/-- Claim C6: a signature containing an unmappable type (with no explicit
model override) or duplicate parameter names fails compilation with a
SchemaInferenceError or compile error synchronously at registration time;
the route is never added to the registry, so no such failure can be
deferred to request time. -/
theorem registration_fails_fast (reg : Registry) (method pathTemplate : String)
    (pathVars : List String) (ps : List DeclaredParam)
    (returnTy : Option TyAnn) (statusOpt : Option Nat)
    (h : (∃ p ∈ ps, hasUnsupported p.ty = true ∧ explicitModelOf p.slot = none)
        ∨ hasDup (ps.map DeclaredParam.name) = true) :
    (∃ e, compile method pathTemplate pathVars ps returnTy statusOpt = .error e)
    ∧ (∃ e, addRoute reg method pathTemplate pathVars ps returnTy statusOpt
        = .error e)
    ∧ ∀ reg2, addRoute reg method pathTemplate pathVars ps returnTy statusOpt
        ≠ .ok reg2 := by
  have hcomp : ∃ e, compile method pathTemplate pathVars ps returnTy statusOpt
      = .error e := by
    cases h with
    | inr hdup =>
      exact ⟨.duplicateParams (ps.map DeclaredParam.name), by simp [compile, hdup]⟩
    | inl hbad =>
      obtain ⟨e, he⟩ := compileParams_error_of_unsupported pathVars ps hbad
      cases hdup : hasDup (ps.map DeclaredParam.name) with
      | true =>
        exact ⟨.duplicateParams (ps.map DeclaredParam.name), by simp [compile, hdup]⟩
      | false =>
        exact ⟨.inference e, by simp [compile, hdup, he]⟩
  obtain ⟨e, he⟩ := hcomp
  refine ⟨⟨e, he⟩, ⟨e, by simp [addRoute, he]⟩, ?_⟩
  intro reg2
  simp [addRoute, he]

/-- Witness for claim C6: a parameter with an unresolvable annotation
makes registration fail and leaves the route out of every registry. -/
theorem registration_fails_fast_witness :
    (∃ p ∈ [DeclaredParam.mk "x" (TyAnn.tUnsupported "SomeGeneric")
        DefaultSlot.empty false],
      hasUnsupported p.ty = true ∧ explicitModelOf p.slot = none)
    ∧ (∃ e, compile "POST" "/widgets" []
        [DeclaredParam.mk "x" (TyAnn.tUnsupported "SomeGeneric")
          DefaultSlot.empty false] none none = .error e)
    ∧ (∃ e, addRoute [] "POST" "/widgets" []
        [DeclaredParam.mk "x" (TyAnn.tUnsupported "SomeGeneric")
          DefaultSlot.empty false] none none = .error e)
    ∧ ∀ reg2, addRoute [] "POST" "/widgets" []
        [DeclaredParam.mk "x" (TyAnn.tUnsupported "SomeGeneric")
          DefaultSlot.empty false] none none ≠ .ok reg2 := by
  have h : ∃ p ∈ [DeclaredParam.mk "x" (TyAnn.tUnsupported "SomeGeneric")
      DefaultSlot.empty false],
      hasUnsupported p.ty = true ∧ explicitModelOf p.slot = none :=
    ⟨DeclaredParam.mk "x" (TyAnn.tUnsupported "SomeGeneric") DefaultSlot.empty false,
      List.mem_singleton.mpr rfl, rfl, rfl⟩
  have hr := registration_fails_fast [] "POST" "/widgets" []
    [DeclaredParam.mk "x" (TyAnn.tUnsupported "SomeGeneric") DefaultSlot.empty false]
    none none (Or.inl h)
  exact ⟨h, hr.1, hr.2.1, hr.2.2⟩

/-- A descriptor that binds successfully records no error entries. -/
theorem bindErrs_nil_of_ok (req : Request) (d : ParamDescriptor)
    (h : bindFails req d = false) : bindErrs req d = [] := by
  unfold bindFails at h
  unfold bindErrs
  cases hb : bindOne req d with
  | error es => rw [hb] at h; simp at h
  | ok v => rfl

/-- The error component of the binder loop is the concatenation, in
declared parameter order, of every descriptor's recorded entries. -/
theorem bindParams_fst (req : Request) :
    ∀ ds : List ParamDescriptor,
    (bindParams req ds).1 = (ds.map (bindErrs req)).flatten := by
  intro ds
  induction ds with
  | nil => rfl
  | cons d rest ih =>
    rw [List.map_cons, List.flatten_cons]
    unfold bindParams
    cases hb : bindOne req d with
    | error es =>
      cases hp : bindParams req rest with
      | mk errs args =>
        have hrest : errs = (rest.map (bindErrs req)).flatten := by
          have h2 := ih
          rw [hp] at h2
          exact h2
        simp only []
        rw [hrest]
        simp [bindErrs, hb]
    | ok v =>
      cases hp : bindParams req rest with
      | mk errs args =>
        have hrest : errs = (rest.map (bindErrs req)).flatten := by
          have h2 := ih
          rw [hp] at h2
          exact h2
        cases v with
        | some kv => simp only []; rw [hrest]; simp [bindErrs, hb]
        | none => simp only []; rw [hrest]; simp [bindErrs, hb]

/-- When every failing descriptor records exactly one entry, the total
number of aggregated entries is the number of failing descriptors. -/
theorem flatten_length_eq_count (req : Request) :
    ∀ ds : List ParamDescriptor,
    (∀ d ∈ ds, bindFails req d = true → (bindErrs req d).length = 1) →
    ((ds.map (bindErrs req)).flatten).length
      = ds.countP (fun d => bindFails req d) := by
  intro ds
  induction ds with
  | nil => intro _; rfl
  | cons d rest ih =>
    intro h
    have hrest := ih (fun d2 hd2 => h d2 (List.mem_cons_of_mem d hd2))
    rw [List.map_cons, List.flatten_cons, List.length_append, List.countP_cons]
    rw [hrest]
    cases hf : bindFails req d with
    | true =>
      have h1 := h d (List.mem_cons_self d rest) hf
      rw [h1]
      simp
      omega
    | false =>
      rw [bindErrs_nil_of_ok req d hf]
      simp

/-- Claim C2: when K > 1 of an endpoint's declared parameters fail
validation (each contributing one Validation Error Entry), binding fails
as a unit returning exactly K entries ordered by the endpoint's declared
parameter order, and the business callable is invoked zero times. -/
theorem binder_aggregates_errors (m : CompiledModel)
    (handler : List (String × Value) → Value) (req : Request) (K : Nat)
    (hone : ∀ d ∈ m.descriptors, bindFails req d = true →
      (bindErrs req d).length = 1)
    (hK : K = m.descriptors.countP (fun d => bindFails req d))
    (hK2 : 1 < K) :
    bindRequest m req = .error ((m.descriptors.map (bindErrs req)).flatten)
    ∧ ((m.descriptors.map (bindErrs req)).flatten).length = K
    ∧ (handleRequest m handler req).1 = 0 := by
  have hlen : ((m.descriptors.map (bindErrs req)).flatten).length = K := by
    rw [flatten_length_eq_count req m.descriptors hone, hK]
  have hfst := bindParams_fst req m.descriptors
  cases hflat : (m.descriptors.map (bindErrs req)).flatten with
  | nil =>
    rw [hflat] at hlen
    simp at hlen
    omega
  | cons e es =>
    rw [hflat] at hlen
    cases hp0 : bindParams req m.descriptors with
    | mk errs args =>
      rw [hp0] at hfst
      simp only [] at hfst
      rw [hflat] at hfst
      subst hfst
      have hbr : bindRequest m req = .error (e :: es) := by
        unfold bindRequest
        rw [hp0]
      refine ⟨hbr, hlen, ?_⟩
      unfold handleRequest
      rw [hbr]

/-- Witness for claim C2: an endpoint with two required query parameters
receiving an empty request aggregates exactly two missing-field entries
in declared order and never invokes the business callable. -/
theorem binder_aggregates_errors_witness :
    (∀ d ∈ [ParamDescriptor.mk "a" SourceKind.query
        (SchemaNode.prim PrimType.pInt true none none) none true none true false,
       ParamDescriptor.mk "b" SourceKind.query
        (SchemaNode.prim PrimType.pStr true none none) none true none true false],
      bindFails (Request.mk [] [] [] [] none [] []) d = true →
        (bindErrs (Request.mk [] [] [] [] none [] []) d).length = 1)
    ∧ (1 : Nat) < 2
    ∧ (([ParamDescriptor.mk "a" SourceKind.query
          (SchemaNode.prim PrimType.pInt true none none) none true none true false,
        ParamDescriptor.mk "b" SourceKind.query
          (SchemaNode.prim PrimType.pStr true none none) none true none true
          false].map (bindErrs (Request.mk [] [] [] [] none [] []))).flatten
        = [ErrEntry.mk SourceKind.query ["a"] "Missing data for required field.",
           ErrEntry.mk SourceKind.query ["b"] "Missing data for required field."])
    ∧ bindRequest (CompiledModel.mk "POST" "/t"
        [ParamDescriptor.mk "a" SourceKind.query
          (SchemaNode.prim PrimType.pInt true none none) none true none true false,
         ParamDescriptor.mk "b" SourceKind.query
          (SchemaNode.prim PrimType.pStr true none none) none true none true false]
        none none 200) (Request.mk [] [] [] [] none [] [])
      = .error (([ParamDescriptor.mk "a" SourceKind.query
          (SchemaNode.prim PrimType.pInt true none none) none true none true false,
        ParamDescriptor.mk "b" SourceKind.query
          (SchemaNode.prim PrimType.pStr true none none) none true none true
          false].map (bindErrs (Request.mk [] [] [] [] none [] []))).flatten)
    ∧ (handleRequest (CompiledModel.mk "POST" "/t"
        [ParamDescriptor.mk "a" SourceKind.query
          (SchemaNode.prim PrimType.pInt true none none) none true none true false,
         ParamDescriptor.mk "b" SourceKind.query
          (SchemaNode.prim PrimType.pStr true none none) none true none true false]
        none none 200) (fun _ => Value.vNull)
        (Request.mk [] [] [] [] none [] [])).1 = 0 := by
  have h := binder_aggregates_errors (CompiledModel.mk "POST" "/t"
      [ParamDescriptor.mk "a" SourceKind.query
        (SchemaNode.prim PrimType.pInt true none none) none true none true false,
       ParamDescriptor.mk "b" SourceKind.query
        (SchemaNode.prim PrimType.pStr true none none) none true none true false]
      none none 200) (fun _ => Value.vNull) (Request.mk [] [] [] [] none [] [])
      2 (by decide) (by decide) (by decide)
  exact ⟨by decide, by decide, rfl, h.1, h.2.2⟩

/-- Filtering both sides of an elementwise correspondence by predicates
that agree across the correspondence preserves it. -/
theorem forall2_filter {α β : Type} {R : α → β → Prop} {pa : α → Bool}
    {pb : β → Bool} (hcong : ∀ a b, R a b → pa a = pb b) :
    ∀ {l1 : List α} {l2 : List β}, List.Forall₂ R l1 l2 →
    List.Forall₂ R (l1.filter pa) (l2.filter pb) := by
  intro l1 l2 h
  induction h with
  | nil => exact List.Forall₂.nil
  | cons ha hrest ih =>
    rename_i a b l1b l2b
    rw [List.filter_cons, List.filter_cons]
    cases hpa : pa a with
    | true =>
      have hpb : pb b = true := by rw [← hcong a b ha]; exact hpa
      rw [hpb]
      simp only [if_true]
      exact List.Forall₂.cons ha ih
    | false =>
      have hpb : pb b = false := by rw [← hcong a b ha]; exact hpa
      rw [hpb]
      simp only [Bool.false_eq_true, if_false]
      exact ih

/-- Mapping both sides of an elementwise correspondence by functions that
agree across it yields equal lists. -/
theorem forall2_map_eq {α β γ : Type} {R : α → β → Prop} {f : α → γ}
    {g : β → γ} (hcong : ∀ a b, R a b → f a = g b) :
    ∀ {l1 : List α} {l2 : List β}, List.Forall₂ R l1 l2 →
    l1.map f = l2.map g := by
  intro l1 l2 h
  induction h with
  | nil => rfl
  | cons ha hrest ih =>
    rw [List.map_cons, List.map_cons, hcong _ _ ha, ih]

/-- With two or more Body descriptors the merged body schema is the
synthetic composite of their names and schemas. -/
theorem computeBodySchema_multi :
    ∀ l : List ParamDescriptor, 1 < l.length →
    computeBodySchema l
      = some (SchemaNode.record (l.map (fun d => (d.name, d.schema))) true none none) := by
  intro l hl
  match l with
  | [] => simp at hl
  | [d] => simp at hl
  | a :: b :: t => rfl

/-- Record-shape preservation of the optional wrapper. -/
theorem setNotRequired_isRecord (s : SchemaNode) :
    (setNotRequired s).isRecord = s.isRecord := by
  cases s <;> rfl

/-- Inference of a composite record annotation produces a record node. -/
theorem composite_infers_record : (ty : TyAnn) → isComposite ty = true →
    ∀ s : SchemaNode, inferFromType ty = .ok s → s.isRecord = true
  | .tInt, h, _, _ => by simp [isComposite] at h
  | .tStr, h, _, _ => by simp [isComposite] at h
  | .tBool, h, _, _ => by simp [isComposite] at h
  | .tUnsupported _, h, _, _ => by simp [isComposite] at h
  | .tOptional inner, h, s, hs => by
    have h2 : isComposite inner = true := h
    cases hi : inferFromType inner with
    | error e => rw [show inferFromType (.tOptional inner)
        = Except.error e by simp [inferFromType, hi]] at hs; simp at hs
    | ok s2 =>
      rw [show inferFromType (.tOptional inner)
        = Except.ok (setNotRequired s2) by simp [inferFromType, hi]] at hs
      simp only [Except.ok.injEq] at hs
      subst hs
      rw [setNotRequired_isRecord]
      exact composite_infers_record inner h2 s2 hi
  | .tRecord n fields, _, s, hs => by
    cases hf : inferFields fields with
    | error e => rw [show inferFromType (.tRecord n fields)
        = Except.error e by simp [inferFromType, hf]] at hs; simp at hs
    | ok fs =>
      rw [show inferFromType (.tRecord n fields)
        = Except.ok (.record fs true none none) by simp [inferFromType, hf]] at hs
      simp only [Except.ok.injEq] at hs
      subst hs
      rfl

/-- Claim C3: when more than one parameter is classified as Body,
compilation produces one synthetic composite body schema whose field
names are the parameter names and whose field schemas are each
parameter's inferred schema; an endpoint whose single Body parameter has
a composite record type exposes the record's own fields as the top-level
body fields (no nesting under the parameter name) unless the explicit
embed flag forces nesting under the parameter name. -/
theorem body_merging (method pathTemplate : String) (pathVars : List String)
    (ps : List DeclaredParam) (returnTy : Option TyAnn) (statusOpt : Option Nat)
    (m : CompiledModel)
    (hok : compile method pathTemplate pathVars ps returnTy statusOpt = .ok m) :
    (1 < (ps.filter (fun p => classify pathVars p == SourceKind.body)).length →
      ∃ fs, m.bodySchema = some (SchemaNode.record fs true none none)
        ∧ List.Forall₂ (fun p fpair => fpair.1 = p.name
            ∧ infer p.ty (explicitModelOf p.slot) = .ok fpair.2)
          (ps.filter (fun p => classify pathVars p == SourceKind.body)) fs)
    ∧ (∀ p : DeclaredParam,
        ps.filter (fun p2 => classify pathVars p2 == SourceKind.body) = [p] →
        isComposite p.ty = true → explicitModelOf p.slot = none →
        p.embed = false →
        ∃ s, inferFromType p.ty = .ok s ∧ s.isRecord = true
          ∧ m.bodySchema = some s)
    ∧ (∀ p : DeclaredParam,
        ps.filter (fun p2 => classify pathVars p2 == SourceKind.body) = [p] →
        p.embed = true →
        ∃ s, infer p.ty (explicitModelOf p.slot) = .ok s
          ∧ m.bodySchema
            = some (SchemaNode.record [(p.name, s)] true none none)) := by
  obtain ⟨ds, rs, hdup, hps, hrs, hdesc, hbody, _⟩ :=
    compile_ok_parts method pathTemplate pathVars ps returnTy statusOpt m hok
  have hcorr := compileParams_forall2 pathVars ps ds hps
  have hcong : ∀ (p : DeclaredParam) (d : ParamDescriptor),
      compileParam pathVars p = .ok d →
      (classify pathVars p == SourceKind.body) = (d.source == SourceKind.body) := by
    intro p d hpd
    rw [(compileParam_ok_spec pathVars p d hpd).2.1]
  have hfilt := forall2_filter hcong hcorr
  refine ⟨?_, ?_, ?_⟩
  · intro hlen
    have hlen2 : 1 < (ds.filter (fun d => d.source == SourceKind.body)).length := by
      rw [← hfilt.length_eq]
      exact hlen
    refine ⟨(ds.filter (fun d => d.source == SourceKind.body)).map
      (fun d => (d.name, d.schema)), ?_, ?_⟩
    · rw [hbody, computeBodySchema_multi _ hlen2]
    · rw [List.forall₂_map_right_iff]
      refine hfilt.imp ?_
      intro p d hpd
      have hs := compileParam_ok_spec pathVars p d hpd
      exact ⟨hs.1, hs.2.2.1⟩
  · intro p hfone hcomp hmodel hembed
    rw [hfone] at hfilt
    rw [List.forall₂_cons_left_iff] at hfilt
    obtain ⟨d, u2, hpd, htail, hu⟩ := hfilt
    rw [List.forall₂_nil_left_iff] at htail
    subst htail
    have hs := compileParam_ok_spec pathVars p d hpd
    have hinf : inferFromType p.ty = .ok d.schema := by
      have h2 := hs.2.2.1
      rw [hmodel] at h2
      exact h2
    have hde : d.embed = false := by rw [hs.2.2.2.2.2.2.2, hembed]
    refine ⟨d.schema, hinf, composite_infers_record p.ty hcomp d.schema hinf, ?_⟩
    rw [hbody, hu]
    simp [computeBodySchema, hde]
  · intro p hfone hembed
    rw [hfone] at hfilt
    rw [List.forall₂_cons_left_iff] at hfilt
    obtain ⟨d, u2, hpd, htail, hu⟩ := hfilt
    rw [List.forall₂_nil_left_iff] at htail
    subst htail
    have hs := compileParam_ok_spec pathVars p d hpd
    have hde : d.embed = true := by rw [hs.2.2.2.2.2.2.2, hembed]
    refine ⟨d.schema, hs.2.2.1, ?_⟩
    rw [hbody, hu]
    simp [computeBodySchema, hde, hs.1]

/-- Witness for claim C3: merging two Body parameters a : int and b : str
produces the composite schema with fields a and b; posting a=1, b="x"
binds both and posting a="notanint" yields one entry with path [a]; a
single composite Pet body accepts its fields at top level un-nested,
while an embedded Pet body accepts them only nested under "pet". -/
theorem body_merging_witness :
    compile "POST" "/m" []
      [DeclaredParam.mk "a" TyAnn.tInt
        (DefaultSlot.marker (mkBody ParamDefault.ellipsis)) false,
       DeclaredParam.mk "b" TyAnn.tStr
        (DefaultSlot.marker (mkBody ParamDefault.ellipsis)) false] none none
      = Except.ok (CompiledModel.mk "POST" "/m"
        [ParamDescriptor.mk "a" SourceKind.body
          (SchemaNode.prim PrimType.pInt true none none) none true none true true,
         ParamDescriptor.mk "b" SourceKind.body
          (SchemaNode.prim PrimType.pStr true none none) none true none true true]
        (some (SchemaNode.record
          [("a", SchemaNode.prim PrimType.pInt true none none),
           ("b", SchemaNode.prim PrimType.pStr true none none)] true none none))
        none 204)
    ∧ (∃ fs, (CompiledModel.mk "POST" "/m"
        [ParamDescriptor.mk "a" SourceKind.body
          (SchemaNode.prim PrimType.pInt true none none) none true none true true,
         ParamDescriptor.mk "b" SourceKind.body
          (SchemaNode.prim PrimType.pStr true none none) none true none true true]
        (some (SchemaNode.record
          [("a", SchemaNode.prim PrimType.pInt true none none),
           ("b", SchemaNode.prim PrimType.pStr true none none)] true none none))
        none 204).bodySchema = some (SchemaNode.record fs true none none)
        ∧ List.Forall₂ (fun p fpair => fpair.1 = p.name
            ∧ infer p.ty (explicitModelOf p.slot) = .ok fpair.2)
          ([DeclaredParam.mk "a" TyAnn.tInt
              (DefaultSlot.marker (mkBody ParamDefault.ellipsis)) false,
            DeclaredParam.mk "b" TyAnn.tStr
              (DefaultSlot.marker (mkBody ParamDefault.ellipsis)) false].filter
            (fun p => classify [] p == SourceKind.body)) fs)
    ∧ bindRequest (CompiledModel.mk "POST" "/m"
        [ParamDescriptor.mk "a" SourceKind.body
          (SchemaNode.prim PrimType.pInt true none none) none true none true true,
         ParamDescriptor.mk "b" SourceKind.body
          (SchemaNode.prim PrimType.pStr true none none) none true none true true]
        (some (SchemaNode.record
          [("a", SchemaNode.prim PrimType.pInt true none none),
           ("b", SchemaNode.prim PrimType.pStr true none none)] true none none))
        none 204)
        (Request.mk [] [] [] []
          (some (Value.vObj [("a", Value.vInt 1), ("b", Value.vStr "x")])) [] [])
      = Except.ok [("a", Value.vInt 1), ("b", Value.vStr "x")]
    ∧ bindRequest (CompiledModel.mk "POST" "/m"
        [ParamDescriptor.mk "a" SourceKind.body
          (SchemaNode.prim PrimType.pInt true none none) none true none true true,
         ParamDescriptor.mk "b" SourceKind.body
          (SchemaNode.prim PrimType.pStr true none none) none true none true true]
        (some (SchemaNode.record
          [("a", SchemaNode.prim PrimType.pInt true none none),
           ("b", SchemaNode.prim PrimType.pStr true none none)] true none none))
        none 204)
        (Request.mk [] [] [] []
          (some (Value.vObj [("a", Value.vStr "notanint"), ("b", Value.vStr "x")]))
          [] [])
      = Except.error [ErrEntry.mk SourceKind.body ["a"] "Not a valid integer."]
    ∧ compile "POST" "/pets" []
      [DeclaredParam.mk "pet"
        (TyAnn.tRecord "Pet" [("name", TyAnn.tStr, none, none)])
        DefaultSlot.empty false] none none
      = Except.ok (CompiledModel.mk "POST" "/pets"
        [ParamDescriptor.mk "pet" SourceKind.body
          (SchemaNode.record [("name", SchemaNode.prim PrimType.pStr true none none)]
            true none none) none true none true false]
        (some (SchemaNode.record
          [("name", SchemaNode.prim PrimType.pStr true none none)] true none none))
        none 204)
    ∧ bindRequest (CompiledModel.mk "POST" "/pets"
        [ParamDescriptor.mk "pet" SourceKind.body
          (SchemaNode.record [("name", SchemaNode.prim PrimType.pStr true none none)]
            true none none) none true none true false]
        (some (SchemaNode.record
          [("name", SchemaNode.prim PrimType.pStr true none none)] true none none))
        none 204)
        (Request.mk [] [] [] [] (some (Value.vObj [("name", Value.vStr "Rex")])) [] [])
      = Except.ok [("pet", Value.vObj [("name", Value.vStr "Rex")])]
    ∧ compile "POST" "/petsE" []
      [DeclaredParam.mk "pet"
        (TyAnn.tRecord "Pet" [("name", TyAnn.tStr, none, none)])
        DefaultSlot.empty true] none none
      = Except.ok (CompiledModel.mk "POST" "/petsE"
        [ParamDescriptor.mk "pet" SourceKind.body
          (SchemaNode.record [("name", SchemaNode.prim PrimType.pStr true none none)]
            true none none) none true none true true]
        (some (SchemaNode.record
          [("pet", SchemaNode.record
            [("name", SchemaNode.prim PrimType.pStr true none none)] true none none)]
          true none none))
        none 204)
    ∧ bindRequest (CompiledModel.mk "POST" "/petsE"
        [ParamDescriptor.mk "pet" SourceKind.body
          (SchemaNode.record [("name", SchemaNode.prim PrimType.pStr true none none)]
            true none none) none true none true true]
        (some (SchemaNode.record
          [("pet", SchemaNode.record
            [("name", SchemaNode.prim PrimType.pStr true none none)] true none none)]
          true none none))
        none 204)
        (Request.mk [] [] [] []
          (some (Value.vObj [("pet", Value.vObj [("name", Value.vStr "Rex")])])) [] [])
      = Except.ok [("pet", Value.vObj [("name", Value.vStr "Rex")])]
    ∧ bindRequest (CompiledModel.mk "POST" "/petsE"
        [ParamDescriptor.mk "pet" SourceKind.body
          (SchemaNode.record [("name", SchemaNode.prim PrimType.pStr true none none)]
            true none none) none true none true true]
        (some (SchemaNode.record
          [("pet", SchemaNode.record
            [("name", SchemaNode.prim PrimType.pStr true none none)] true none none)]
          true none none))
        none 204)
        (Request.mk [] [] [] [] (some (Value.vObj [("name", Value.vStr "Rex")])) [] [])
      = Except.error
          [ErrEntry.mk SourceKind.body ["pet"] "Missing data for required field."] := by
  have h := body_merging "POST" "/m" []
      [DeclaredParam.mk "a" TyAnn.tInt
        (DefaultSlot.marker (mkBody ParamDefault.ellipsis)) false,
       DeclaredParam.mk "b" TyAnn.tStr
        (DefaultSlot.marker (mkBody ParamDefault.ellipsis)) false] none none
      (CompiledModel.mk "POST" "/m"
        [ParamDescriptor.mk "a" SourceKind.body
          (SchemaNode.prim PrimType.pInt true none none) none true none true true,
         ParamDescriptor.mk "b" SourceKind.body
          (SchemaNode.prim PrimType.pStr true none none) none true none true true]
        (some (SchemaNode.record
          [("a", SchemaNode.prim PrimType.pInt true none none),
           ("b", SchemaNode.prim PrimType.pStr true none none)] true none none))
        none 204) rfl
  exact ⟨rfl, h.1 (by decide), rfl, rfl, rfl, rfl, rfl, rfl, rfl⟩

/-- Cons equation of object lookup. -/
theorem lookupKV_cons (k k2 : String) (v : Value) (rest : List (String × Value)) :
    lookupKV k ((k2, v) :: rest) = if k2 = k then some v else lookupKV k rest := rfl

/-- Lookup skips a prefix in which the key is absent. -/
theorem lookupKV_append_none (k : String) :
    ∀ l1 l2 : List (String × Value), lookupKV k l1 = none →
    lookupKV k (l1 ++ l2) = lookupKV k l2 := by
  intro l1 l2 h1
  induction l1 with
  | nil => rfl
  | cons kv t ih =>
    cases kv with
    | mk k2 v =>
      rw [List.cons_append, lookupKV_cons]
      rw [lookupKV_cons] at h1
      by_cases hk : k2 = k
      · simp [hk] at h1
      · simp only [hk, if_false] at h1 ⊢
        exact ih h1

/-- Lookup finds a hit in the prefix first. -/
theorem lookupKV_append_some (k : String) :
    ∀ l1 l2 : List (String × Value), ∀ v : Value, lookupKV k l1 = some v →
    lookupKV k (l1 ++ l2) = some v := by
  intro l1 l2 v h1
  induction l1 with
  | nil => simp [lookupKV] at h1
  | cons kv t ih =>
    cases kv with
    | mk k2 w =>
      rw [List.cons_append, lookupKV_cons]
      rw [lookupKV_cons] at h1
      by_cases hk : k2 = k
      · simp only [hk, if_true] at h1 ⊢
        exact h1
      · simp only [hk, if_false] at h1 ⊢
        exact ih h1

/-- The head step of the field loop is deserField1. -/
theorem deserFields_cons (name : String) (s : SchemaNode)
    (rest : List (String × SchemaNode)) (o : List (String × Value)) :
    deserFields ((name, s) :: rest) o
      = match deserField1 name s o, deserFields rest o with
        | .ok kvs1, .ok kvs2 => .ok (kvs1 ++ kvs2)
        | .error es1, .error es2 => .error (es1 ++ es2)
        | .error es1, .ok _ => .error es1
        | .ok _, .error es2 => .error es2 := rfl

/-- A successful field step outputs nothing or exactly its own field. -/
theorem deserField1_ok_shape (name : String) (s : SchemaNode)
    (o : List (String × Value)) (kvs : List (String × Value))
    (h : deserField1 name s o = .ok kvs) :
    kvs = [] ∨ ∃ w, kvs = [(name, w)] := by
  cases hlk : lookupKV name o with
  | some v =>
    simp only [deserField1, hlk] at h
    cases hd : deserialize s v with
    | ok v2 =>
      rw [hd] at h
      simp only [Except.ok.injEq] at h
      exact Or.inr ⟨v2, h.symm⟩
    | error es => rw [hd] at h; simp at h
  | none =>
    simp only [deserField1, hlk] at h
    cases he : s.effectiveDefault with
    | some d =>
      rw [he] at h
      simp only [Except.ok.injEq] at h
      exact Or.inr ⟨d, h.symm⟩
    | none =>
      rw [he] at h
      cases hr : s.required with
      | true => rw [hr] at h; simp at h
      | false =>
        rw [hr] at h
        simp only [Bool.false_eq_true, if_false, Except.ok.injEq] at h
        exact Or.inl h.symm

/-- Output keys of one field step carry only that field's name. -/
theorem deserField1_keys (name : String) (s : SchemaNode)
    (o : List (String × Value)) (kvs : List (String × Value))
    (h : deserField1 name s o = .ok kvs) (k : String) (hk : name ≠ k) :
    lookupKV k kvs = none := by
  rcases deserField1_ok_shape name s o kvs h with hnil | ⟨w, hw⟩
  · subst hnil; rfl
  · subst hw; simp [lookupKV, hk]

/-- Cons equation of field lookup. -/
theorem lookupField_cons (k k2 : String) (s : SchemaNode)
    (rest : List (String × SchemaNode)) :
    lookupField k ((k2, s) :: rest)
      = if k2 = k then some s else lookupField k rest := rfl

/-- An absent field with a reconciled default is filled with exactly that
default by the field loop. -/
theorem deserFields_fills_default :
    ∀ (fs : List (String × SchemaNode)) (o outs : List (String × Value))
      (k : String) (n : SchemaNode) (D : Value),
    deserFields fs o = .ok outs → lookupField k fs = some n →
    lookupKV k o = none → n.effectiveDefault = some D →
    lookupKV k outs = some D := by
  intro fs
  induction fs with
  | nil => intro o outs k n D _ hlf; simp [lookupField] at hlf
  | cons f rest ih =>
    intro o outs k n D hdf hlf hko hed
    cases f with
    | mk name s =>
      rw [deserFields_cons] at hdf
      cases h1 : deserField1 name s o with
      | error es1 =>
        rw [h1] at hdf
        cases h2 : deserFields rest o <;> rw [h2] at hdf <;> simp at hdf
      | ok kvs1 =>
        rw [h1] at hdf
        cases h2 : deserFields rest o with
        | error es2 => rw [h2] at hdf; simp at hdf
        | ok kvs2 =>
          rw [h2] at hdf
          simp only [Except.ok.injEq] at hdf
          subst hdf
          rw [lookupField_cons] at hlf
          by_cases hk : name = k
          · rw [hk] at h1
            simp only [hk, if_true, Option.some.injEq] at hlf
            subst hlf
            simp only [deserField1, hko, hed] at h1
            simp only [Except.ok.injEq] at h1
            subst h1
            exact lookupKV_append_some k [(k, D)] kvs2 D (by simp [lookupKV])
          · simp only [hk, if_false] at hlf
            rw [lookupKV_append_none k kvs1 kvs2
              (deserField1_keys name s o kvs1 h1 k hk)]
            exact ih o kvs2 k n D h2 hlf hko hed

/-- A present field is deserialized recursively and its result is found
under its name in the output. -/
theorem deserFields_present :
    ∀ (fs : List (String × SchemaNode)) (o outs : List (String × Value))
      (k : String) (sk : SchemaNode) (v2 : Value),
    deserFields fs o = .ok outs → lookupField k fs = some sk →
    lookupKV k o = some v2 →
    ∃ w, deserialize sk v2 = .ok w ∧ lookupKV k outs = some w := by
  intro fs
  induction fs with
  | nil => intro o outs k sk v2 _ hlf; simp [lookupField] at hlf
  | cons f rest ih =>
    intro o outs k sk v2 hdf hlf hko
    cases f with
    | mk name s =>
      rw [deserFields_cons] at hdf
      cases h1 : deserField1 name s o with
      | error es1 =>
        rw [h1] at hdf
        cases h2 : deserFields rest o <;> rw [h2] at hdf <;> simp at hdf
      | ok kvs1 =>
        rw [h1] at hdf
        cases h2 : deserFields rest o with
        | error es2 => rw [h2] at hdf; simp at hdf
        | ok kvs2 =>
          rw [h2] at hdf
          simp only [Except.ok.injEq] at hdf
          subst hdf
          rw [lookupField_cons] at hlf
          by_cases hk : name = k
          · rw [hk] at h1
            simp only [hk, if_true, Option.some.injEq] at hlf
            subst hlf
            simp only [deserField1, hko] at h1
            cases hd : deserialize s v2 with
            | error es => rw [hd] at h1; simp at h1
            | ok w =>
              rw [hd] at h1
              simp only [Except.ok.injEq] at h1
              subst h1
              exact ⟨w, rfl,
                lookupKV_append_some k [(k, w)] kvs2 w (by simp [lookupKV])⟩
          · simp only [hk, if_false] at hlf
            obtain ⟨w, hw1, hw2⟩ := ih o kvs2 k sk v2 h2 hlf hko
            refine ⟨w, hw1, ?_⟩
            rw [lookupKV_append_none k kvs1 kvs2
              (deserField1_keys name s o kvs1 h1 k hk)]
            exact hw2

/-- Deserialization fills an absent field, at any nesting depth, with the
native-language declared default whenever one exists at that node. -/
theorem deserialize_fills_nested :
    ∀ (p2 : List String) (s : SchemaNode) (v r : Value) (n : SchemaNode)
      (D : Value),
    nodeAt s p2 = some n → n.nativeDefault = some D →
    absentAt v p2 = true → deserialize s v = .ok r →
    getPath r p2 = some D := by
  intro p2
  induction p2 with
  | nil =>
    intro s v r n D hn hd habs hdes
    cases v <;> simp [absentAt] at habs
  | cons k rest ih =>
    intro s v r n D hn hd habs hdes
    cases v with
    | vInt m => simp [absentAt] at habs
    | vStr str => simp [absentAt] at habs
    | vBool b => simp [absentAt] at habs
    | vNull => simp [absentAt] at habs
    | vObj o =>
      cases s with
      | prim t r0 nd ld => simp [nodeAt] at hn
      | record fs r0 nd ld =>
        cases hlf : lookupField k fs with
        | none => simp [nodeAt, hlf] at hn
        | some s2 =>
          simp only [nodeAt, hlf] at hn
          simp only [deserialize] at hdes
          cases hdf : deserFields fs o with
          | error es => rw [hdf] at hdes; simp at hdes
          | ok outs =>
            rw [hdf] at hdes
            simp only [Except.ok.injEq] at hdes
            subst hdes
            cases rest with
            | nil =>
              simp only [nodeAt, Option.some.injEq] at hn
              subst hn
              simp only [absentAt, Option.isNone_iff_eq_none] at habs
              have hed : s2.effectiveDefault = some D := by
                unfold SchemaNode.effectiveDefault firstSome
                rw [hd]
              have hout := deserFields_fills_default fs o outs k s2 D hdf hlf habs hed
              simp [getPath, hout]
            | cons k2 rest2 =>
              cases hko : lookupKV k o with
              | none => simp [absentAt, hko] at habs
              | some v2 =>
                simp only [absentAt, hko] at habs
                obtain ⟨w, hw1, hw2⟩ :=
                  deserFields_present fs o outs k s2 v2 hdf hlf hko
                have htail := ih s2 v2 w n D hn hd habs hw1
                simp [getPath, hw2]
                exact htail

/-- Claim C1: for a field with both a native-language (or explicit
parameter) default D and a schema-library declared default S with D and S
different, binding an absent value yields D, never S: at the parameter
level the compiled descriptor's reconciled default is the native one, and
the precedence holds transitively through nested composite fields at any
depth during deserialization. -/
theorem native_default_precedence :
    (∀ (pathVars : List String) (p : DeclaredParam) (desc : ParamDescriptor)
        (req : Request) (D S : Value),
      nativeDefaultOf p.slot = some D → desc.schema.libDefault = some S →
      D ≠ S → compileParam pathVars p = .ok desc → extractRaw req desc = none →
      bindOne req desc = .ok (some (p.name, D)))
    ∧ (∀ (p2 : List String) (s : SchemaNode) (v r : Value) (n : SchemaNode)
        (D S : Value),
      nodeAt s p2 = some n → n.nativeDefault = some D → n.libDefault = some S →
      D ≠ S → absentAt v p2 = true → deserialize s v = .ok r →
      getPath r p2 = some D) := by
  constructor
  · intro pathVars p desc req D S hD hS hDS hok hext
    have spec := compileParam_ok_spec pathVars p desc hok
    have hdef : desc.default = some D := by
      rw [spec.2.2.2.1, hD]
      rfl
    simp [bindOne, hext, hdef, spec.1]
  · intro p2 s v r n D S hn hd hl hDS habs hdes
    exact deserialize_fills_nested p2 s v r n D hn hd habs hdes

/-- Witness for claim C1: the docs/design_ideas.md example, offset : int
= Query(0, model=mf.Integer(missing=10)), binds 0 when absent (never 10);
a nested record field with native default 0 and library default 10,
absent from the posted object, is likewise filled with 0. -/
theorem native_default_precedence_witness :
    nativeDefaultOf (DeclaredParam.mk "offset" TyAnn.tInt
        (DefaultSlot.marker (mkQuery (ParamDefault.val (Value.vInt 0)) none true
          (some (SchemaNode.prim PrimType.pInt true none (some (Value.vInt 10))))))
        false).slot = some (Value.vInt 0)
    ∧ (ParamDescriptor.mk "offset" SourceKind.query
        (SchemaNode.prim PrimType.pInt true none (some (Value.vInt 10)))
        (some (Value.vInt 0)) false none true false).schema.libDefault
      = some (Value.vInt 10)
    ∧ Value.vInt 0 ≠ Value.vInt 10
    ∧ compileParam [] (DeclaredParam.mk "offset" TyAnn.tInt
        (DefaultSlot.marker (mkQuery (ParamDefault.val (Value.vInt 0)) none true
          (some (SchemaNode.prim PrimType.pInt true none (some (Value.vInt 10))))))
        false)
      = Except.ok (ParamDescriptor.mk "offset" SourceKind.query
          (SchemaNode.prim PrimType.pInt true none (some (Value.vInt 10)))
          (some (Value.vInt 0)) false none true false)
    ∧ bindOne (Request.mk [] [] [] [] none [] [])
        (ParamDescriptor.mk "offset" SourceKind.query
          (SchemaNode.prim PrimType.pInt true none (some (Value.vInt 10)))
          (some (Value.vInt 0)) false none true false)
      = Except.ok (some ("offset", Value.vInt 0))
    ∧ nodeAt (SchemaNode.record
        [("cfg", SchemaNode.record
          [("offset", SchemaNode.prim PrimType.pInt false
            (some (Value.vInt 0)) (some (Value.vInt 10)))] true none none)]
        true none none) ["cfg", "offset"]
      = some (SchemaNode.prim PrimType.pInt false
          (some (Value.vInt 0)) (some (Value.vInt 10)))
    ∧ absentAt (Value.vObj [("cfg", Value.vObj [])]) ["cfg", "offset"] = true
    ∧ deserialize (SchemaNode.record
        [("cfg", SchemaNode.record
          [("offset", SchemaNode.prim PrimType.pInt false
            (some (Value.vInt 0)) (some (Value.vInt 10)))] true none none)]
        true none none) (Value.vObj [("cfg", Value.vObj [])])
      = Except.ok (Value.vObj [("cfg", Value.vObj [("offset", Value.vInt 0)])])
    ∧ getPath (Value.vObj [("cfg", Value.vObj [("offset", Value.vInt 0)])])
        ["cfg", "offset"] = some (Value.vInt 0) := by
  refine ⟨rfl, rfl, by simp, rfl, ?_, rfl, rfl, rfl, ?_⟩
  · exact native_default_precedence.1 []
      (DeclaredParam.mk "offset" TyAnn.tInt
        (DefaultSlot.marker (mkQuery (ParamDefault.val (Value.vInt 0)) none true
          (some (SchemaNode.prim PrimType.pInt true none (some (Value.vInt 10))))))
        false)
      (ParamDescriptor.mk "offset" SourceKind.query
        (SchemaNode.prim PrimType.pInt true none (some (Value.vInt 10)))
        (some (Value.vInt 0)) false none true false)
      (Request.mk [] [] [] [] none [] [])
      (Value.vInt 0) (Value.vInt 10) rfl rfl (by simp) rfl rfl
  · exact native_default_precedence.2 ["cfg", "offset"]
      (SchemaNode.record
        [("cfg", SchemaNode.record
          [("offset", SchemaNode.prim PrimType.pInt false
            (some (Value.vInt 0)) (some (Value.vInt 10)))] true none none)]
        true none none)
      (Value.vObj [("cfg", Value.vObj [])])
      (Value.vObj [("cfg", Value.vObj [("offset", Value.vInt 0)])])
      (SchemaNode.prim PrimType.pInt false
        (some (Value.vInt 0)) (some (Value.vInt 10)))
      (Value.vInt 0) (Value.vInt 10) rfl rfl rfl (by simp) rfl rfl
